import Mathlib

/-!
Verification of the column-transformation / SQL-expression-composition core of
the VerticaPy vDataFrame layer (`verticapy/core/vdataframe/_math.py`).

The Python source is shallowly embedded as executable Lean functions.  A
relation (`vDataFrame`) is a record of columns, each column carrying its
ordered transformation chain `_transf`; the remote database engine is an
oracle `Engine : String -> Except String String` mapping a probe query to the
resulting data type (or an engine error message).  Error payloads raised by
the Python code are modelled structurally (constructor plus the data that is
interpolated into the Python message) rather than as the formatted text.

Helpers of the repository that are not part of the reviewed sources
(`quote_ident`, `to_category`, `get_columns`, `gen_name`, `_get_sort_syntax`,
`verticapy_agg_name`, `vDataFrame.eval`, `add_copy`, `format_colnames`) are
modelled from the specification and are marked `Modelled from the spec:` in
their doc comments.
-/

set_option maxRecDepth 20000

/-! ### String utilities (structural, kernel-computable) -/

/-- If `pat` is a prefix of `s`, return the remainder of `s`, else `none`. -/
def dropPre : List Char → List Char → Option (List Char)
  | [], s => some s
  | _ :: _, [] => none
  | p :: ps, c :: cs => if p = c then dropPre ps cs else none

/-- Fuelled replacement of every occurrence of `pat` by `rep`
(Python `str.replace` for a non-empty pattern). -/
def replaceAux (pat rep : List Char) : Nat → List Char → List Char
  | _, [] => []
  | 0, s => s
  | Nat.succ n, c :: rest =>
    match dropPre pat (c :: rest) with
    | some rem => rep ++ replaceAux pat rep n rem
    | none => c :: replaceAux pat rep n rest

/-- Python `s.replace(pat, rep)` (callers only use non-empty patterns). -/
def strReplace (s pat rep : String) : String :=
  if pat.data.isEmpty then s
  else ⟨replaceAux pat.data rep.data s.data.length s.data⟩

/-- Substring test on character lists. -/
def containsAux (pat : List Char) : List Char → Bool
  | [] => (dropPre pat []).isSome
  | c :: rest => (dropPre pat (c :: rest)).isSome || containsAux pat rest

/-- Python `pat in s` (substring containment). -/
def strContains (s pat : String) : Bool := containsAux pat.data s.data

/-- Membership of a character in a list of characters. -/
def charMem (c : Char) : List Char → Bool
  | [] => false
  | d :: rest => c = d || charMem c rest

/-- Python `ch in s` for a single character. -/
def strContainsChar (s : String) (c : Char) : Bool := charMem c s.data

/-- Python `s.lower()` (ASCII). -/
def strToLower (s : String) : String := ⟨s.data.map Char.toLower⟩

/-- Python `s.upper()` (ASCII). -/
def strToUpper (s : String) : String := ⟨s.data.map Char.toUpper⟩

/-- Python `s[-1]` as an `Option`. -/
def strLastChar (s : String) : Option Char := s.data.getLast?

/-- Python `s[0:-1]`. -/
def strDropLast (s : String) : String := ⟨s.data.dropLast⟩

/-- Membership of a string in a list of strings (Python `in` over tuples). -/
def inList (f : String) : List String → Bool
  | [] => false
  | x :: xs => f = x || inList f xs

/-- Python `", ".join(l)`. -/
def joinComma : List String → String
  | [] => ""
  | [s] => s
  | s :: rest => s ++ ", " ++ joinComma rest

/-- A word character for the purposes of the regex word boundary `\b`
(ASCII letters, digits and underscore). -/
def isWordChar (c : Char) : Bool := c.isAlphanum || c = '_'

/-- Whether a word boundary holds against the given neighbouring character. -/
def wordBoundary : Option Char → Bool
  | none => true
  | some c => !isWordChar c

/-- Whether `pat` occurs in the remaining input with a word boundary on both
sides; `prev` is the character immediately before the current position.
For a pattern of word characters this is `re.search(rf"\b{pat}\b", s)`. -/
def wtAux (pat : List Char) : Option Char → List Char → Bool
  | prev, s =>
    (wordBoundary prev &&
      (match dropPre pat s with
       | some rem => wordBoundary rem.head?
       | none => false)) ||
    (match s with
     | [] => false
     | c :: rest => wtAux pat (some c) rest)

/-- `re.search(rf"\b{pat}\b", s)` for a pattern made of word characters. -/
def wholeTokenMatch (pat s : String) : Bool := wtAux pat.data none s.data

/-- Python `s.replace('"', "")`. -/
def strRemoveQuotes (s : String) : String := strReplace s "\"" ""

/-! ### Number parsing and rendering (model of Python `float`)

Python floats are binary; the model uses exact fractions, which agrees with
Python on the simple decimal literals the claims exercise.  `parseFloat`
models `float(s)` on optionally signed decimal literals with an optional
exponent; the further forms Python accepts (`inf`, `nan`, underscores) are
not modelled.  Fractions are kept unnormalized so that every operation is
kernel-primitive arithmetic. -/

/-- An exact (unnormalized) fraction standing for a Python float value. -/
structure PyFloat where
  num : Int
  den : Nat
deriving DecidableEq, Repr

/-- Division of a Python float by `10 ^ k` (used for `x / 100`). -/
def PyFloat.divPow10 (q : PyFloat) (k : Nat) : PyFloat :=
  { q with den := q.den * 10 ^ k }

/-- Multiplication of a Python float by `10 ^ k`. -/
def PyFloat.mulPow10 (q : PyFloat) (k : Nat) : PyFloat :=
  { q with num := q.num * (10 ^ k : Nat) }

/-- Consume a run of decimal digits, returning the accumulated value, the
number of digits consumed, and the rest of the input. -/
def takeDigits (acc n : Nat) : List Char → Nat × Nat × List Char
  | [] => (acc, n, [])
  | c :: cs =>
    if c.isDigit then takeDigits (acc * 10 + (c.toNat - 48)) (n + 1) cs
    else (acc, n, c :: cs)

/-- Parse an optional exponent suffix and finish the number. -/
def parseExp (sgnd : PyFloat) : List Char → Option PyFloat
  | [] => some sgnd
  | e :: r =>
    if e = 'e' || e = 'E' then
      let (eneg, r1) :=
        match r with
        | '+' :: r2 => (false, r2)
        | '-' :: r2 => (true, r2)
        | r2 => (false, r2)
      let (ev, en, r2) := takeDigits 0 0 r1
      if en = 0 then none
      else
        match r2 with
        | [] => some (if eneg then sgnd.divPow10 ev else sgnd.mulPow10 ev)
        | _ => none
    else none

/-- Strip leading and trailing spaces (Python `float` ignores surrounding
whitespace). -/
def stripSpaces (s : List Char) : List Char :=
  ((s.dropWhile (· = ' ')).reverse.dropWhile (· = ' ')).reverse

/-- Model of Python `float(s)` returning an exact fraction. -/
def parseFloat (s : String) : Option PyFloat :=
  let s0 := stripSpaces s.data
  let (neg, s1) :=
    match s0 with
    | '+' :: r => (false, r)
    | '-' :: r => (true, r)
    | r => (false, r)
  let (ip, ipn, s2) := takeDigits 0 0 s1
  match s2 with
  | '.' :: r =>
    let (fp, fpn, s3) := takeDigits 0 0 r
    if ipn + fpn = 0 then none
    else
      let n : Int := (ip : Int) * (10 ^ fpn : Nat) + (fp : Int)
      parseExp { num := if neg then -n else n, den := 10 ^ fpn } s3
  | rest =>
    if ipn = 0 then none
    else parseExp { num := if neg then -(ip : Int) else (ip : Int), den := 1 } rest

/-- Left-pad a digit string with zeros to the given width. -/
def padZeros (k : Nat) (s : String) : String :=
  ⟨List.replicate (k - s.data.length) '0'⟩ ++ s

/-- Rendering of a signed integer without using `Int.repr`. -/
def intStr (i : Int) : String :=
  if i < 0 then "-" ++ toString i.natAbs else toString i.natAbs

/-- Find the least `k` (starting from `k0`, with the given fuel) such that
`q * 10 ^ k` is an integer. -/
def findDecAux (q : PyFloat) (k0 : Nat) : Nat → Option Nat
  | 0 => none
  | Nat.succ fuel =>
    if q.num * (10 ^ k0 : Nat) % (q.den : Int) = 0 then some k0
    else findDecAux q (k0 + 1) fuel

/-- Rendering of a fraction as Python renders the corresponding float inside
an f-string (exact for terminating decimals, which is all the claims use). -/
def pyFloatRepr (q : PyFloat) : String :=
  let d : Int := (q.den : Int)
  if q.num % d = 0 then intStr (q.num / d) ++ ".0"
  else
    match findDecAux q 1 30 with
    | some k =>
      let m := q.num * (10 ^ k : Nat) / d
      let sign := if m < 0 then "-" else ""
      let a := m.natAbs
      sign ++ toString (a / 10 ^ k) ++ "." ++ padZeros k (toString (a % 10 ^ k))
    | none => intStr q.num ++ "/" ++ toString q.den


/-! ### Data model -/

/-- One logical column of the relation: its quoted alias, its transformation
chain `_transf` (template, data type, category), and its cached catalog entry
(`none` once invalidated). -/
structure VCol where
  aliasName : String
  transf : List (String × String × String)
  catalog : Option String
deriving DecidableEq, Repr

/-- The relation (`vDataFrame`): the SQL text it renders to in `FROM` clauses,
its columns, the `exclude_columns` entry of `_vars`, and the history log
(modelled structurally as (alias, substituted template) pairs). -/
structure VDF where
  relSQL : String
  cols : List VCol
  excludeCols : List String
  history : List (String × String)
deriving DecidableEq, Repr

/-- Execution state threaded through the embedding: the relation plus the
log of every SQL text sent to the engine and of printed warnings. -/
structure RState where
  vdf : VDF
  queries : List String
  warnings : List String
deriving DecidableEq, Repr

/-- The engine oracle: given the text of a probe query, either the resulting
data type or the engine error message. -/
abbrev Engine := String → Except String String

/-- Structural model of the errors the Python code raises.  Constructors
carry the data interpolated into the corresponding Python message. -/
inductive VpError where
  /-- `QueryError` raised by `vDataColumn.apply` / `vDataFrame.eval`:
  the engine message, the failed expression, and the column name. -/
  | queryError (engineMsg expr colName : String)
  /-- `MissingColumn` raised when an order-independent analytic function is
  called without columns. -/
  | missingColumn (func : String)
  /-- `ValueError` for a malformed `x%` percentile name. -/
  | percentileFormat (func : String)
  /-- `ValueError` of the generic analytic fallback (aggregate does not
  exist / is not managed). -/
  | aggDoesNotExist (func : String)
  /-- `ValueError` when a ranking function that needs columns gets none. -/
  | valueErrorNeedsColumns (func : String)
  /-- `ValueError` when a ranking function that takes no columns gets some. -/
  | valueErrorNoColumns (func : String)
  /-- `AssertionError` (with a `MissingColumn` message) when a pairwise
  statistic does not get exactly two columns. -/
  | assertPairColumns (func : String)
  /-- Python `IndexError` from `columns[0]` on an empty list. -/
  | indexError
  /-- Python `KeyError` from looking up a column that does not exist. -/
  | keyError (key : String)
deriving DecidableEq, Repr

/-- Outcome of an operation: success, or an error raised while the state had
the given value (Python exceptions leave already-performed mutations in
place, so the raise-time state is part of the outcome). -/
inductive Res where
  | ok (st : RState)
  | err (e : VpError) (st : RState)
deriving DecidableEq, Repr

/-- Sequencing that propagates errors (models Python exception flow). -/
def Res.bind (r : Res) (f : RState → Res) : Res :=
  match r with
  | .ok st => f st
  | .err e st => .err e st

/-! ### Modelled collaborators -/

/-- Whether a name is already a quoted identifier. -/
def isQuoted (s : String) : Bool :=
  match s.data with
  | [] => false
  | [_] => false
  | c :: rest => c = '"' && rest.getLast? = some '"'

/-- Modelled from the spec: `quote_ident` (module `verticapy._utils._sql._format`,
not part of the reviewed sources) turns a name into the unique quoted
identifier used as a column alias, leaving already-quoted names unchanged
and doubling embedded double quotes. -/
def quoteIdent (s : String) : String :=
  if isQuoted s then s else "\"" ++ strReplace s "\"" "\"\"" ++ "\""

/-- Modelled from the spec: `to_category` (module `verticapy._utils._sql._cast`),
the fixed engine-type-to-category classifier; a pure lookup table. -/
def toCategory (ctype : String) : String :=
  let c := strToLower ctype
  if c = "int" || c = "integer" || c = "bigint" || c = "smallint" then "int"
  else if c = "float" || c = "numeric" || c = "double precision" then "float"
  else if c = "varchar" || c = "char" || c = "long varchar" then "text"
  else if c = "date" || c = "timestamp" then "date"
  else if c = "boolean" then "bool"
  else if strContains c "map" then "vmap"
  else if strContains c "array" || strContains c "row" then "complex"
  else "undefined"

/-- Aliases of all columns of the relation, in insertion order. -/
def colAliases (vdf : VDF) : List String := vdf.cols.map (·.aliasName)

/-- Modelled from the spec: `get_columns` returns the ordered visible column
aliases, that is all columns minus `exclude_columns`. -/
def getColumns (vdf : VDF) : List String :=
  (vdf.cols.filter (fun c => !(inList c.aliasName vdf.excludeCols))).map (·.aliasName)

/-- Column lookup (`vdf[name]`); the key is normalized with `quoteIdent` the
way `format_colnames` resolves user-supplied names. -/
def lookupCol (vdf : VDF) (key : String) : Option VCol :=
  vdf.cols.find? (fun c => c.aliasName = quoteIdent key)

/-- Replace the column whose alias matches the (normalized) key. -/
def replaceCol (vdf : VDF) (key : String) (c : VCol) : VDF :=
  { vdf with cols := vdf.cols.map (fun x => if x.aliasName = quoteIdent key then c else x) }

/-- Modelled from the spec: `gen_name` derives a deterministic default column
name from the function name and the parameter names. -/
def genName (parts : List String) : String :=
  joinComma (parts.map strRemoveQuotes)

/-- Modelled from the spec: `_get_sort_syntax` renders an `ORDER BY` clause
from the order-by columns, or the empty (falsy) string when there are none. -/
def getSortSyntax (l : List String) : String :=
  if l.isEmpty then "" else "ORDER BY " ++ joinComma (l.map quoteIdent)

/-- Modelled from the spec: `verticapy_agg_name` normalizes the user-facing
aggregate names documented for `analytic` (std, var, mean, mode, ema) to the
Vertica names the dispatch sets use; other names pass through unchanged. -/
def verticapyAggName (f : String) : String :=
  if f = "std" || f = "stdev" then "stddev"
  else if f = "var" then "variance"
  else if f = "mean" then "avg"
  else if f = "mode" then "top"
  else if f = "ema" then "exponential_moving_average"
  else f

/-- The normalization `analytic` applies to its `func` argument
(`func.lower()` then `verticapy_agg_name`). -/
def aggNorm (f : String) : String := verticapyAggName (strToLower f)

/-- The `PARTITION BY` clause built by `analytic` from the (already
normalized) partition columns: `by = "PARTITION BY " + ", ".join(by)` when
non-empty, else the empty string. -/
def partitionClause (bys : List String) : String :=
  if bys.isEmpty then "" else "PARTITION BY " ++ joinComma bys

/-- The last data type of a column's chain (`vDataColumn.ctype()`). -/
def colCtype (c : VCol) : String :=
  (c.transf.getLast?.map (fun t => t.2.1)).getD "undefined"

/-- The last category of a column's chain (`vDataColumn.category()`). -/
def colCategory (c : VCol) : String :=
  (c.transf.getLast?.map (fun t => t.2.2)).getD "undefined"

/-- The zero-row type probe issued by `vDataFrame.eval` for a candidate
expression. -/
def evalProbe (vdf : VDF) (name expr : String) : String :=
  "SELECT " ++ expr ++ " AS " ++ name ++ " FROM " ++ vdf.relSQL ++ " LIMIT 0"

/-- Modelled from the spec: `vDataFrame.eval(name, expr)` issues a type probe
for `expr`, and on success appends a new column named `name` whose chain has
the single entry `(expr, probed type, category)`; on engine failure a
`QueryError` propagates. -/
def vdfEval (eng : Engine) (st : RState) (name expr : String) : Res :=
  let probe := evalProbe st.vdf name expr
  let st1 : RState := { st with queries := st.queries ++ [probe] }
  match eng probe with
  | .error e => .err (.queryError e expr (strRemoveQuotes name)) st1
  | .ok ctype =>
    .ok { st1 with
          vdf := { st1.vdf with
                   cols := st1.vdf.cols ++
                     [{ aliasName := quoteIdent name,
                        transf := [(expr, ctype, toCategory ctype)],
                        catalog := none }] } }

/-! ### `vDCMath.apply` (lines 1214-1265 of `_math.py`) -/

/-- The zero-row type probe issued by `vDCMath.apply`, byte-for-byte the
f-string of lines 1220-1225 (`{self._parent}` renders the relation SQL and
`{self}` the column alias). -/
def applyProbe (vdf : VDF) (colAlias funcApply : String) : String :=
  "\n                    SELECT \n                        " ++ funcApply ++
  " AS apply_test_feature \n                    FROM " ++ vdf.relSQL ++
  " \n                    WHERE " ++ colAlias ++
  " IS NOT NULL \n                    LIMIT 0"

/-- The per-column match test of the floor loop (lines 1233-1238): the quoted
alias occurs as a substring of the template, or the unquoted alias occurs as
a whole-token (`\b`-delimited) regex match. -/
def colMatches (func column : String) : Bool :=
  strContains func (quoteIdent column) ||
    wholeTokenMatch (strRemoveQuotes column) func

/-- Chain length of the column with the given alias (0 if absent; the loop
body guards each column with `try/except`). -/
def transfLenOf (vdf : VDF) (column : String) : Nat :=
  match lookupCol vdf column with
  | some c => c.transf.length
  | none => 0

/-- The floor scan of `vDCMath.apply` (lines 1229-1241): the maximum chain
length over the relation's visible columns whose alias occurs in the
template `func`, starting from 0. -/
def floorOf (vdf : VDF) (func : String) : Nat :=
  (getColumns vdf).foldl
    (fun m column => if colMatches func column then max (transfLenOf vdf column) m else m) 0

/-- `vDCMath.apply(func, copy_name)` (lines 1214-1265).  The type probe is
issued first; on engine failure the `QueryError` (engine message, failed
expression, column name) is raised with the state otherwise untouched.  On
success the floor is computed, identity padding and the new step are
appended — to a fresh copy when `copy_name` is truthy (`add_copy` is
modelled from the spec: it clones the chain into a new alias), in place
otherwise (which erases this column's catalog entry) — and a history entry
is appended. -/
def vdcApply (eng : Engine) (st : RState) (key func : String)
    (copyName : Option String) : Res :=
  match lookupCol st.vdf key with
  | none => .err (.keyError key) st
  | some self =>
    let funcApply := strReplace func "{}" self.aliasName
    let aliasRepr := strRemoveQuotes self.aliasName
    let probe := applyProbe st.vdf self.aliasName funcApply
    let st1 : RState := { st with queries := st.queries ++ [probe] }
    match eng probe with
    | .error e => .err (.queryError e funcApply aliasRepr) st1
    | .ok ctype =>
      let category := toCategory ctype
      let maxFloor := floorOf st1.vdf func
      -- `max_floor -= len(self._transf)` followed by `range(max_floor)`:
      -- Nat subtraction matches Python's empty range on a negative bound.
      let padCount := maxFloor - self.transf.length
      let padding := List.replicate padCount ("{}", colCtype self, colCategory self)
      let doCopy := match copyName with | some s => s != "" | none => false
      if doCopy then
        let cnStr := strRemoveQuotes ((copyName.getD ""))
        let newCol : VCol :=
          { aliasName := quoteIdent cnStr,
            transf := self.transf ++ padding ++ [(func, ctype, category)],
            catalog := self.catalog }
        let vdf1 := { st1.vdf with cols := st1.vdf.cols ++ [newCol] }
        .ok { st1 with vdf := { vdf1 with history := vdf1.history ++ [(aliasRepr, funcApply)] } }
      else
        let self1 : VCol :=
          { self with
            transf := self.transf ++ padding ++ [(func, ctype, category)],
            catalog := none }
        let vdf1 := replaceCol st1.vdf key self1
        .ok { st1 with vdf := { vdf1 with history := vdf1.history ++ [(aliasRepr, funcApply)] } }

/-! ### `vDCMath.apply_fun` (lines 1468-1501 of `_math.py`) -/

/-- A Python scalar second argument of `apply_fun`, carried with the text an
f-string interpolation of it produces. -/
inductive PyScalar where
  | num (s : String)
  | str (s : String)
deriving DecidableEq, Repr

/-- How an f-string renders the scalar (numbers by their literal, strings by
their raw content). -/
def PyScalar.render : PyScalar → String
  | .num s => s
  | .str s => s

/-- A single-quote character, used for SQL string literals. -/
def sqChar : String := "\x27"

/-- The template computation of `vDCMath.apply_fun` (lines 1468-1501),
including the `LENTGH` misspelling of line 1479; `cat` is the column's
current category. -/
def applyFunExpr (func0 : String) (cat : String) (x : PyScalar) : String :=
  let f1 := if func0 = "mean" then "avg" else if func0 = "length" then "len" else func0
  let f2 :=
    if f1 = "len" then
      (if cat = "vmap" then "MAPSIZE"
       else if cat = "complex" then "APPLY_COUNT_ELEMENTS"
       else "LENTGH")
    else if f1 = "max" || f1 = "min" || f1 = "sum" || f1 = "avg" || f1 = "count" then
      "APPLY_" ++ f1
    else if f1 = "dim" then "ARRAY_DIMS"
    else f1
  if !(inList f2 ["log", "mod", "pow", "round", "contain", "find"]) then
    strToUpper f2 ++ "({})"
  else if f2 = "log" then
    strToUpper f2 ++ "(" ++ x.render ++ ", {})"
  else if f2 = "mod" || f2 = "pow" || f2 = "round" then
    strToUpper f2 ++ "({}, " ++ x.render ++ ")"
  else
    let f :=
      if f2 = "contain" then (if cat = "vmap" then "MAPCONTAINSVALUE" else "CONTAINS")
      else "ARRAY_FIND"
    let xs :=
      match x with
      | .str s => sqChar ++ strReplace s sqChar (sqChar ++ sqChar) ++ sqChar
      | .num s => s
    f ++ "({}, " ++ xs ++ ")"

/-- `vDCMath.apply_fun` delegates to `apply` with the compiled template. -/
def vdcApplyFun (eng : Engine) (st : RState) (key func0 : String) (x : PyScalar) : Res :=
  match lookupCol st.vdf key with
  | none => .err (.keyError key) st
  | some self => vdcApply eng st key (applyFunExpr func0 (colCategory self) x) none

/-! ### `vDFMath.analytic` (lines 174-655 of `_math.py`): expression texts -/

/-- The f-string of line 444 of the source, byte for byte. -/
def kurtosisExpr (c0 byStr meanName stdName countName : String) : String :=
  "AVG(POWER((" ++
  c0 ++
  " - " ++
  meanName ++
  ") \n                          / NULLIFZERO(" ++
  stdName ++
  "), 4)) OVER (" ++
  byStr ++
  ") \n                          * POWER(" ++
  countName ++
  ", 2) \n                          * (" ++
  countName ++
  " + 1) \n                          / NULLIFZERO((" ++
  countName ++
  " - 1) \n                          * (" ++
  countName ++
  " - 2) \n                          * (" ++
  countName ++
  " - 3)) \n                          - 3 * POWER(" ++
  countName ++
  " - 1, 2) \n                          / NULLIFZERO((" ++
  countName ++
  " - 2) \n                          * (" ++
  countName ++
  " - 3))"

/-- The f-string of line 458 of the source, byte for byte. -/
def skewnessExpr (c0 byStr meanName stdName countName : String) : String :=
  "AVG(POWER((" ++
  c0 ++
  " - " ++
  meanName ++
  ") \n                         / NULLIFZERO(" ++
  stdName ++
  "), 3)) OVER (" ++
  byStr ++
  ") \n                         * POWER(" ++
  countName ++
  ", 2) \n                         / NULLIFZERO((" ++
  countName ++
  " - 1) \n                         * (" ++
  countName ++
  " - 2))"

/-- The f-string of line 467 of the source, byte for byte. -/
def jbExpr (c0 byStr meanName stdName countName : String) : String :=
  countName ++
  " / 6 * (POWER(AVG(POWER((" ++
  c0 ++
  " \n                          - " ++
  meanName ++
  ") / NULLIFZERO(" ++
  stdName ++
  "), 3)) OVER (" ++
  byStr ++
  ") \n                          * POWER(" ++
  countName ++
  ", 2) / NULLIFZERO((" ++
  countName ++
  " - 1) \n                          * (" ++
  countName ++
  " - 2)), 2) + POWER(AVG(POWER((" ++
  c0 ++
  " \n                          - " ++
  meanName ++
  ") / NULLIFZERO(" ++
  stdName ++
  "), 4)) OVER (" ++
  byStr ++
  ") \n                          * POWER(" ++
  countName ++
  ", 2) * (" ++
  countName ++
  " + 1) \n                          / NULLIFZERO((" ++
  countName ++
  " - 1) * (" ++
  countName ++
  " - 2) \n                          * (" ++
  countName ++
  " - 3)) - 3 * POWER(" ++
  countName ++
  " - 1, 2) \n                          / NULLIFZERO((" ++
  countName ++
  " - 2) * (" ++
  countName ++
  " - 3)), 2) / 4)"

/-- The f-string of line 505 of the source, byte for byte. -/
def uniqueExpr (c0 byStr : String) : String :=
  "DENSE_RANK() OVER (" ++
  byStr ++
  " ORDER BY " ++
  c0 ++
  " ASC) \n                      + DENSE_RANK() OVER (" ++
  byStr ++
  " ORDER BY " ++
  c0 ++
  " DESC) - 1"

/-- The f-string of line 530 of the source, byte for byte. -/
def iqrExpr (c0 byStr : String) : String :=
  "PERCENTILE_CONT(0.75) WITHIN GROUP(ORDER BY " ++
  c0 ++
  ") OVER (" ++
  byStr ++
  ") \n                      - PERCENTILE_CONT(0.25) WITHIN GROUP(ORDER BY " ++
  c0 ++
  ") OVER (" ++
  byStr ++
  ")"

/-- The f-string of line 541 of the source, byte for byte. -/
def prodExpr (c0 byStr : String) : String :=
  "DECODE(ABS(MOD(SUM(CASE \n                                            WHEN " ++
  c0 ++
  " < 0 \n                                            THEN 1 ELSE 0 END) \n                                       OVER (" ++
  byStr ++
  "), 2)), 0, 1, -1) \n                     * POWER(10, SUM(LOG(ABS(" ++
  c0 ++
  "))) \n                                 OVER (" ++
  byStr ++
  "))"

/-- The f-string of line 628 of the source, byte for byte. -/
def pairExpr (c0 c1 byStr den : String) : String :=
  "\n                    (AVG(" ++
  c0 ++
  " * " ++
  c1 ++
  ") OVER (" ++
  byStr ++
  ") \n                   - AVG(" ++
  c0 ++
  ") OVER (" ++
  byStr ++
  ") \n                   * AVG(" ++
  c1 ++
  ") OVER (" ++
  byStr ++
  "))" ++
  den

/-! ### `vDFMath.analytic`: dispatch sets -/

/-- The order-independent aggregate tuple of line 396-416. -/
def set1List : List String :=
  ["max", "min", "avg", "sum", "count", "stddev", "median", "variance",
   "unique", "top", "kurtosis", "skewness", "mad", "aad", "range", "prod",
   "jb", "iqr", "sem"]

/-- The dispatch condition of line 396: membership in the aggregate tuple or
a `%` anywhere in the name. -/
def set1Cond (f : String) : Bool := inList f set1List || strContainsChar f '%'

/-- The higher-moment tuple of line 427. -/
def momentList : List String := ["skewness", "kurtosis", "aad", "mad", "jb"]

/-- The ranking/offset tuple of lines 550-561. -/
def rankList : List String :=
  ["lead", "lag", "row_number", "percent_rank", "dense_rank", "rank",
   "first_value", "last_value", "exponential_moving_average", "pct_change"]

/-- The tuple of line 562-568 (ranking functions that require columns). -/
def needsColsList : List String :=
  ["lead", "lag", "first_value", "last_value", "pct_change"]

/-- The tuple of line 573-580 (ranking functions allowed to take columns). -/
def colsAllowedList : List String :=
  ["lead", "lag", "first_value", "last_value", "pct_change",
   "exponential_moving_average"]

/-- The pairwise tuple of line 606. -/
def pairList : List String := ["corr", "cov", "beta"]

/-! ### `vDFMath.analytic`: branches -/

/-- The higher-moment branch (lines 427-486) followed by the scratch-column
exclusion block (lines 645-654), which only fires for these functions.  Each
`eval` may raise a `QueryError` that propagates. -/
def analyticMoment (eng : Engine) (st : RState) (func c0 byStr name : String)
    (randomNb : Nat) : Res :=
  let columnStr := strRemoveQuotes c0
  let meanName := columnStr ++ "_mean_" ++ toString randomNb
  let medianName := columnStr ++ "_median_" ++ toString randomNb
  let stdName := columnStr ++ "_std_" ++ toString randomNb
  let countName := columnStr ++ "_count_" ++ toString randomNb
  let r1 :=
    if func = "mad" then
      vdfEval eng st medianName ("MEDIAN(" ++ c0 ++ ") OVER (" ++ byStr ++ ")")
    else
      vdfEval eng st meanName ("AVG(" ++ c0 ++ ") OVER (" ++ byStr ++ ")")
  Res.bind r1 fun st =>
  let r2 :=
    if func != "aad" && func != "mad" then
      Res.bind (vdfEval eng st stdName ("STDDEV(" ++ c0 ++ ") OVER (" ++ byStr ++ ")"))
        fun st =>
          vdfEval eng st countName ("COUNT(" ++ c0 ++ ") OVER (" ++ byStr ++ ")")
    else .ok st
  Res.bind r2 fun st =>
  let formula :=
    if func = "kurtosis" then kurtosisExpr c0 byStr meanName stdName countName
    else if func = "skewness" then skewnessExpr c0 byStr meanName stdName countName
    else if func = "jb" then jbExpr c0 byStr meanName stdName countName
    else if func = "aad" then
      "AVG(ABS(" ++ c0 ++ " - " ++ meanName ++ ")) OVER (" ++ byStr ++ ")"
    else
      "MEDIAN(ABS(" ++ c0 ++ " - " ++ medianName ++ ")) OVER (" ++ byStr ++ ")"
  Res.bind (vdfEval eng st name formula) fun st =>
  let excl :=
    if func = "kurtosis" || func = "skewness" || func = "jb" then
      [quoteIdent meanName, quoteIdent stdName, quoteIdent countName]
    else if func = "aad" then [quoteIdent meanName]
    else [quoteIdent medianName]
  .ok { st with vdf := { st.vdf with excludeCols := st.vdf.excludeCols ++ excl } }

/-- The `top` branch (lines 487-501): the ranking column, the optional
`_count` companion column, then an in-place `apply` on the new column.  Note
that nothing is added to `exclude_columns` on this path. -/
def analyticTop (eng : Engine) (st : RState) (c0 byStr name : String)
    (addCount : Bool) : Res :=
  let byStr2 := if byStr = "" then "PARTITION BY " ++ c0 else byStr ++ ", " ++ c0
  Res.bind (vdfEval eng st name ("ROW_NUMBER() OVER (" ++ byStr2 ++ ")")) fun st =>
  let r :=
    if addCount then
      let nameStr := strRemoveQuotes name
      vdfEval eng st (nameStr ++ "_count")
        ("NTH_VALUE(" ++ name ++ ", 1) OVER (" ++ byStr ++ " ORDER BY " ++ name ++ " DESC)")
    else .ok st
  Res.bind r fun st =>
  vdcApply eng st name
    ("NTH_VALUE(" ++ c0 ++ ", 1) OVER (" ++ byStr ++ " ORDER BY {} DESC)") none

/-- The first dispatch branch (lines 396-549): order-independent aggregates
and percentiles.  The order-by warning (line 417) pre-empts the
missing-column check (line 422) because the two share an `if/elif`. -/
def analyticBranch1 (eng : Engine) (st : RState)
    (func : String) (columns : List String) (byStr orderByStr name : String)
    (addCount : Bool) (randomNb : Nat) (printInfo : Bool) : Res :=
  let warned := orderByStr != "" && !printInfo
  let st := if warned then { st with warnings := st.warnings ++ [func] } else st
  if !warned && columns.isEmpty then .err (.missingColumn func) st
  else if inList func momentList then
    match columns with
    | [] => .err .indexError st
    | c0 :: _ => analyticMoment eng st func c0 byStr name randomNb
  else if func = "top" then
    match columns with
    | [] => .err .indexError st
    | c0 :: _ => analyticTop eng st c0 byStr name addCount
  else if func = "unique" then
    match columns with
    | [] => .err .indexError st
    | c0 :: _ => vdfEval eng st name (uniqueExpr c0 byStr)
  else if strLastChar func = some '%' then
    match parseFloat (strDropLast func) with
    | none => .err (.percentileFormat func) st
    | some x =>
      match columns with
      | [] => .err .indexError st
      | c0 :: _ =>
        vdfEval eng st name
          ("PERCENTILE_CONT(" ++ pyFloatRepr (x.divPow10 2) ++
           ") WITHIN GROUP(ORDER BY " ++ c0 ++ ") OVER (" ++ byStr ++ ")")
  else if func = "range" then
    match columns with
    | [] => .err .indexError st
    | c0 :: _ =>
      vdfEval eng st name
        ("MAX(" ++ c0 ++ ") OVER (" ++ byStr ++ ") - MIN(" ++ c0 ++ ") OVER (" ++ byStr ++ ")")
  else if func = "iqr" then
    match columns with
    | [] => .err .indexError st
    | c0 :: _ => vdfEval eng st name (iqrExpr c0 byStr)
  else if func = "sem" then
    match columns with
    | [] => .err .indexError st
    | c0 :: _ =>
      vdfEval eng st name
        ("STDDEV(" ++ c0 ++ ") OVER (" ++ byStr ++ ") / SQRT(COUNT(" ++ c0 ++
         ") OVER (" ++ byStr ++ "))")
  else if func = "prod" then
    match columns with
    | [] => .err .indexError st
    | c0 :: _ => vdfEval eng st name (prodExpr c0 byStr)
  else
    match columns with
    | [] => .err .indexError st
    | c0 :: _ =>
      vdfEval eng st name (strToUpper func ++ "(" ++ c0 ++ ") OVER (" ++ byStr ++ ")")

/-- The ranking/offset branch (lines 550-605). -/
def analyticRank (eng : Engine) (st : RState)
    (func : String) (columns : List String) (byStr orderByStr name : String)
    (offset : Int) (xSmoothing : PyFloat) : Res :=
  if columns.isEmpty && inList func needsColsList then
    .err (.valueErrorNeedsColumns func) st
  else if !columns.isEmpty && !(inList func colsAllowedList) then
    .err (.valueErrorNoColumns func) st
  else
    let orderByStr := if byStr != "" && orderByStr != "" then " " ++ orderByStr else orderByStr
    let infoParam :=
      if func = "lead" || func = "lag" then ", " ++ intStr offset
      else if func = "last_value" || func = "first_value" then " IGNORE NULLS"
      else if func = "exponential_moving_average" then ", " ++ pyFloatRepr xSmoothing
      else ""
    if func = "pct_change" then
      match columns with
      | [] => .err .indexError st
      | c0 :: _ =>
        vdfEval eng st name
          (c0 ++ " / (LAG(" ++ c0 ++ ") OVER (" ++ byStr ++ orderByStr ++ "))")
    else
      let columns0 := match columns with | [] => "" | c0 :: _ => c0
      vdfEval eng st name
        (strToUpper func ++ "(" ++ columns0 ++ infoParam ++ ") OVER (" ++
         byStr ++ orderByStr ++ ")")

/-- The pairwise branch (lines 606-632): warning on an order-by, an assert on
the column count, then the degenerate short-circuit (`cov(x,x)` is a
variance, `corr(x,x)`/`beta(x,x)` is the integer literal `1`, stringified on
its way into the SQL text) or the product-moment formula. -/
def analyticPair (eng : Engine) (st : RState)
    (func : String) (columns : List String) (byStr orderByStr name : String) : Res :=
  let st := if orderByStr != "" then { st with warnings := st.warnings ++ [func] } else st
  if columns.length != 2 then .err (.assertPairColumns func) st
  else
    match columns with
    | c0 :: c1 :: _ =>
      let expr :=
        if c0 = c1 then
          (if func = "cov" then "VARIANCE(" ++ c0 ++ ") OVER (" ++ byStr ++ ")" else "1")
        else
          let den :=
            if func = "corr" then
              " / (STDDEV(" ++ c0 ++ ") OVER (" ++ byStr ++ ") * STDDEV(" ++ c1 ++
              ") OVER (" ++ byStr ++ "))"
            else if func = "beta" then
              " / (VARIANCE(" ++ c1 ++ ") OVER (" ++ byStr ++ "))"
            else ""
          pairExpr c0 c1 byStr den
      vdfEval eng st name expr
    | _ => .err (.assertPairColumns func) st

/-- The generic fallback (lines 633-644).  The f-string of line 637 reads the
local `info_param`, which is assigned only inside the ranking branch; on this
path it is unbound, so evaluating the f-string raises `NameError`, the bare
`except` swallows it, and the descriptive `ValueError` is raised without any
query having been issued.  The `some` case spells out what the source text
would do if the local were bound. -/
def analyticGeneric (eng : Engine) (st : RState)
    (func : String) (columns : List String) (byStr orderByStr name : String)
    (infoParam : Option String) : Res :=
  match infoParam, columns with
  | some ip, c0 :: _ =>
    (match vdfEval eng st name
        (strToUpper func ++ "(" ++ c0 ++ ip ++ ") OVER (" ++ byStr ++ orderByStr ++ ")") with
     | .ok st1 => .ok st1
     | .err _ st1 => .err (.aggDoesNotExist func) st1)
  | _, _ => .err (.aggDoesNotExist func) st

/-- `vDFMath.analytic` (lines 174-655).  `format_colnames` is modelled from
the spec as identifier normalization of the supplied column names;
`random_nb` (line 428) and the `print_info` configuration option are passed
in as parameters. -/
def analytic (eng : Engine) (st : RState) (func0 : String)
    (columns0 bys0 orderBys0 : List String) (name0 : Option String)
    (offset : Int) (xSmoothing : PyFloat) (addCount : Bool)
    (randomNb : Nat) (printInfo : Bool) : Res :=
  let columns := columns0.map quoteIdent
  let bys := bys0.map quoteIdent
  let byName := if !bys.isEmpty then "by" :: bys else []
  let byOrder := if !orderBys0.isEmpty then "order_by" :: orderBys0 else []
  let name :=
    match name0 with
    | some n => n
    | none => genName (func0 :: (columns ++ byName ++ byOrder))
  let byStr := partitionClause bys
  let orderByStr := getSortSyntax orderBys0
  let func := aggNorm func0
  -- `info_param` is a Python local: unbound unless the ranking branch runs.
  let infoParam : Option String := none
  if set1Cond func then
    analyticBranch1 eng st func columns byStr orderByStr name addCount randomNb printInfo
  else if inList func rankList then
    analyticRank eng st func columns byStr orderByStr name offset xSmoothing
  else if inList func pairList then
    analyticPair eng st func columns byStr orderByStr name
  else
    analyticGeneric eng st func columns byStr orderByStr name infoParam

/-! ### Concrete fixtures for witnesses and counterexamples -/

/-- A numeric column `"x"` with a one-step chain and a cached catalog entry. -/
def xCol : VCol :=
  { aliasName := "\"x\"", transf := [("x", "int", "int")], catalog := some "xstats" }

/-- A text column `"g"` with a one-step chain and a cached catalog entry. -/
def gCol : VCol :=
  { aliasName := "\"g\"", transf := [("g", "varchar", "text")], catalog := some "gstats" }

/-- A small concrete relation with two visible columns. -/
def initVDF : VDF :=
  { relSQL := "\"public\".\"t\"", cols := [xCol, gCol], excludeCols := [], history := [] }

/-- The starting execution state over `initVDF`. -/
def initState : RState := { vdf := initVDF, queries := [], warnings := [] }

/-- An engine that accepts every probe with an integer result type. -/
def engOk : Engine := fun _ => Except.ok "int"

/-- An engine that rejects every probe. -/
def engFail : Engine := fun _ => Except.error "Syntax error at or near"

/-! ### Deeper fixture: a referenced column with a longer chain -/

/-- A variant of `"g"` whose chain has three steps (to exercise the floor). -/
def gDeepCol : VCol :=
  { aliasName := "\"g\"",
    transf := [("g", "int", "int"), ("{}", "int", "int"), ("POWER({}, 2)", "int", "int")],
    catalog := some "gstats" }

/-- A relation in which `"g"` has a deeper chain than `"x"`. -/
def deepVDF : VDF :=
  { relSQL := "\"public\".\"t\"", cols := [xCol, gDeepCol], excludeCols := [], history := [] }

/-- The starting execution state over `deepVDF`. -/
def deepState : RState := { vdf := deepVDF, queries := [], warnings := [] }

/-- Whether a result is the `MissingColumn` validation error. -/
def missingColumnRaised : Res → Bool
  | .err (.missingColumn _) _ => true
  | _ => false

/-- The scratch aliases the higher-moment branch creates and registers for
exclusion (lines 428-433 and 645-654). -/
def momentScratch (func c0 : String) (rnb : Nat) : List String :=
  let columnStr := strRemoveQuotes c0
  if func = "kurtosis" || func = "skewness" || func = "jb" then
    [quoteIdent (columnStr ++ "_mean_" ++ toString rnb),
     quoteIdent (columnStr ++ "_std_" ++ toString rnb),
     quoteIdent (columnStr ++ "_count_" ++ toString rnb)]
  else if func = "aad" then [quoteIdent (columnStr ++ "_mean_" ++ toString rnb)]
  else [quoteIdent (columnStr ++ "_median_" ++ toString rnb)]

/-- The concrete outcome of a skewness call used by the C3 witness. -/
def c3wState : RState :=
  match analytic engOk initState "skewness" ["x"] ["g"] [] (some "sk") 1
      { num := 1, den := 2 } true 7 true with
  | Res.ok s => s
  | Res.err _ s => s


/-! ### Claims about `vDCMath.apply` -/

/-- C1: for every column, template and copy mode, if the zero-row type probe
issued inside `vDCMath.apply` fails, the call raises a `QueryError` carrying
the engine message, the failed (alias-substituted) expression and the column
name, and the relation is byte-for-byte what it was before the call: the
transform chain is untouched, no identity padding or step was appended, the
catalog entry is not invalidated and no history-log entry was added (only
the probe text was sent to the engine). -/
theorem c1_apply_probe_failure_atomic
    (eng : Engine) (st : RState) (key func : String) (copyName : Option String)
    (self : VCol) (e : String)
    (hlook : lookupCol st.vdf key = some self)
    (hprobe : eng (applyProbe st.vdf self.aliasName (strReplace func "{}" self.aliasName))
        = Except.error e) :
    vdcApply eng st key func copyName =
      Res.err
        (.queryError e (strReplace func "{}" self.aliasName)
          (strRemoveQuotes self.aliasName))
        { st with
          queries := st.queries ++
            [applyProbe st.vdf self.aliasName (strReplace func "{}" self.aliasName)] } := by
  simp [vdcApply, hlook, hprobe]

/-- Witness for C1 at a concrete input: the probe of `ABS({})` on `"x"` fails
on `engFail`, the `QueryError` carries the substituted expression, and the
relation inside the returned state is untouched. -/
theorem c1_witness :
    lookupCol initState.vdf "x" = some xCol ∧
    vdcApply engFail initState "x" "ABS({})" none =
      Res.err
        (.queryError "Syntax error at or near"
          (strReplace "ABS({})" "{}" xCol.aliasName) (strRemoveQuotes xCol.aliasName))
        { initState with
          queries := initState.queries ++
            [applyProbe initState.vdf xCol.aliasName
              (strReplace "ABS({})" "{}" xCol.aliasName)] } :=
  ⟨by decide,
   c1_apply_probe_failure_atomic engFail initState "x" "ABS({})" none xCol
     "Syntax error at or near" (by decide) rfl⟩

/-- `replaceCol` only touches the column list. -/
@[simp] theorem replaceCol_history (vdf : VDF) (key : String) (c : VCol) :
    (replaceCol vdf key c).history = vdf.history := rfl

/-- C2: a successful `vDCMath.apply` without `copy_name` replaces the column
by one whose chain is the old chain, then identity padding (`"{}"` with the
column's current type and category) up to the floor computed from the
columns referenced in the template, then the new step — so the new chain
length is `max(previous length, floor) + 1` — and the catalog entry for the
alias is erased and a history entry added. -/
theorem c2_apply_chain_length
    (eng : Engine) (st : RState) (key func : String) (self : VCol) (ctype : String)
    (hlook : lookupCol st.vdf key = some self)
    (hprobe : eng (applyProbe st.vdf self.aliasName (strReplace func "{}" self.aliasName))
        = Except.ok ctype) :
    vdcApply eng st key func none =
      Res.ok { st with
        queries := st.queries ++
          [applyProbe st.vdf self.aliasName (strReplace func "{}" self.aliasName)],
        vdf := { (replaceCol st.vdf key
            { self with
              transf := self.transf ++
                List.replicate (floorOf st.vdf func - self.transf.length)
                  ("{}", colCtype self, colCategory self) ++
                [(func, ctype, toCategory ctype)],
              catalog := none }) with
          history := st.vdf.history ++
            [(strRemoveQuotes self.aliasName, strReplace func "{}" self.aliasName)] } } ∧
    (self.transf ++
      List.replicate (floorOf st.vdf func - self.transf.length)
        ("{}", colCtype self, colCategory self) ++
      [(func, ctype, toCategory ctype)]).length
      = max self.transf.length (floorOf st.vdf func) + 1 := by
  constructor
  · simp [vdcApply, hlook, hprobe]
  · simp only [List.length_append, List.length_replicate, List.length_cons,
      List.length_nil]
    omega

/-- Witness for C2 at a concrete input: applying `{} + "g"` to `"x"` while
`"g"` has a three-step chain pads `"x"` up to the floor 3 and appends the
step, giving chain length `max(1, 3) + 1 = 4`. -/
theorem c2_witness :
    lookupCol deepState.vdf "x" = some xCol ∧
    floorOf deepState.vdf "{} + \"g\"" = 3 ∧
    (vdcApply engOk deepState "x" "{} + \"g\"" none =
      Res.ok { deepState with
        queries := deepState.queries ++
          [applyProbe deepState.vdf xCol.aliasName
            (strReplace "{} + \"g\"" "{}" xCol.aliasName)],
        vdf := { (replaceCol deepState.vdf "x"
            { xCol with
              transf := xCol.transf ++
                List.replicate (floorOf deepState.vdf "{} + \"g\"" - xCol.transf.length)
                  ("{}", colCtype xCol, colCategory xCol) ++
                [("{} + \"g\"", "int", toCategory "int")],
              catalog := none }) with
          history := deepState.vdf.history ++
            [(strRemoveQuotes xCol.aliasName,
              strReplace "{} + \"g\"" "{}" xCol.aliasName)] } } ∧
    (xCol.transf ++
      List.replicate (floorOf deepState.vdf "{} + \"g\"" - xCol.transf.length)
        ("{}", colCtype xCol, colCategory xCol) ++
      [("{} + \"g\"", "int", toCategory "int")]).length
      = max xCol.transf.length (floorOf deepState.vdf "{} + \"g\"") + 1) :=
  ⟨by decide, by decide,
   c2_apply_chain_length engOk deepState "x" "{} + \"g\"" xCol "int" (by decide) rfl⟩

/-- `find?` over an extended list returns the first hit of the original list. -/
theorem find?_append_of_found {p : VCol → Bool} {l : List VCol} {c x : VCol}
    (h : l.find? p = some c) : (l ++ [x]).find? p = some c := by
  induction l with
  | nil => simp [List.find?] at h
  | cons a as ih =>
    by_cases ha : p a = true
    · rw [List.find?_cons_of_pos _ ha] at h
      rw [List.cons_append, List.find?_cons_of_pos _ ha]
      exact h
    · rw [List.find?_cons_of_neg _ (by simpa using ha)] at h
      rw [List.cons_append, List.find?_cons_of_neg _ (by simpa using ha)]
      exact ih h

/-- C10: a successful `vDCMath.apply` with a non-empty `copy_name` appends a
single new column carrying the padded and extended chain and the inherited
catalog entry, leaves every pre-existing column untouched (in particular the
original column is still found with its chain and catalog byte-for-byte
unchanged), and adds only the history entry. -/
theorem c10_copy_apply_preserves_original
    (eng : Engine) (st : RState) (key func cn : String) (self : VCol) (ctype : String)
    (hcn : (cn != "") = true)
    (hlook : lookupCol st.vdf key = some self)
    (hprobe : eng (applyProbe st.vdf self.aliasName (strReplace func "{}" self.aliasName))
        = Except.ok ctype) :
    vdcApply eng st key func (some cn) =
      Res.ok { st with
        queries := st.queries ++
          [applyProbe st.vdf self.aliasName (strReplace func "{}" self.aliasName)],
        vdf := { st.vdf with
          cols := st.vdf.cols ++
            [{ aliasName := quoteIdent (strRemoveQuotes cn),
               transf := self.transf ++
                 List.replicate (floorOf st.vdf func - self.transf.length)
                   ("{}", colCtype self, colCategory self) ++
                 [(func, ctype, toCategory ctype)],
               catalog := self.catalog }],
          history := st.vdf.history ++
            [(strRemoveQuotes self.aliasName, strReplace func "{}" self.aliasName)] } } ∧
    lookupCol
      { st.vdf with
        cols := st.vdf.cols ++
          [{ aliasName := quoteIdent (strRemoveQuotes cn),
             transf := self.transf ++
               List.replicate (floorOf st.vdf func - self.transf.length)
                 ("{}", colCtype self, colCategory self) ++
               [(func, ctype, toCategory ctype)],
             catalog := self.catalog }],
        history := st.vdf.history ++
          [(strRemoveQuotes self.aliasName, strReplace func "{}" self.aliasName)] }
      key = some self := by
  constructor
  · simp [vdcApply, hlook, hprobe, hcn]
  · exact find?_append_of_found hlook

/-- Witness for C10 at a concrete input: copying `"x"` to `x2` under the
template `POWER({}, 2)` leaves the original `"x"` untouched (chain and
catalog identical) and the new column inherits the catalog entry. -/
theorem c10_witness :
    ("x2" != "") = true ∧
    lookupCol initState.vdf "x" = some xCol ∧
    (vdcApply engOk initState "x" "POWER({}, 2)" (some "x2") =
      Res.ok { initState with
        queries := initState.queries ++
          [applyProbe initState.vdf xCol.aliasName
            (strReplace "POWER({}, 2)" "{}" xCol.aliasName)],
        vdf := { initState.vdf with
          cols := initState.vdf.cols ++
            [{ aliasName := quoteIdent (strRemoveQuotes "x2"),
               transf := xCol.transf ++
                 List.replicate (floorOf initState.vdf "POWER({}, 2)" - xCol.transf.length)
                   ("{}", colCtype xCol, colCategory xCol) ++
                 [("POWER({}, 2)", "int", toCategory "int")],
               catalog := xCol.catalog }],
          history := initState.vdf.history ++
            [(strRemoveQuotes xCol.aliasName,
              strReplace "POWER({}, 2)" "{}" xCol.aliasName)] } } ∧
    lookupCol
      { initState.vdf with
        cols := initState.vdf.cols ++
          [{ aliasName := quoteIdent (strRemoveQuotes "x2"),
             transf := xCol.transf ++
               List.replicate (floorOf initState.vdf "POWER({}, 2)" - xCol.transf.length)
                 ("{}", colCtype xCol, colCategory xCol) ++
               [("POWER({}, 2)", "int", toCategory "int")],
             catalog := xCol.catalog }],
        history := initState.vdf.history ++
          [(strRemoveQuotes xCol.aliasName,
            strReplace "POWER({}, 2)" "{}" xCol.aliasName)] }
      "x" = some xCol) :=
  ⟨by decide, by decide,
   c10_copy_apply_preserves_original engOk initState "x" "POWER({}, 2)" "x2" xCol "int"
     (by decide) (by decide) rfl⟩

/-! ### Claims about `apply_fun` and the generic `analytic` fallback -/

/-- C4: the template `apply_fun` compiles for `func = "length"` at the
failing input.  The map and complex categories compile as the claim states,
but the default case produces the misspelled `LENTGH({})` (line 1479), not
`LENGTH({})` — the sibling `get_len` in the same file and the function's own
documentation use `LENGTH`, so this is a slip in the code. -/
theorem c4_length_template_misspelled :
    applyFunExpr "length" "vmap" (.num "2") = "MAPSIZE({})" ∧
    applyFunExpr "length" "complex" (.num "2") = "APPLY_COUNT_ELEMENTS({})" ∧
    applyFunExpr "length" "text" (.num "2") = "LENTGH({})" ∧
    applyFunExpr "length" "text" (.num "2") ≠ "LENGTH({})" ∧
    applyFunExpr "len" "text" (.num "2") = "LENTGH({})" := by
  refine ⟨by decide, by decide, by decide, by decide, by decide⟩

/-- C5: the generic fallback of `analytic` never issues its probe.  At a
concrete unrecognized function name, with an engine that accepts every
query, the call still fails with the descriptive `ValueError` and the
returned state shows that no query was sent: the f-string of line 637 reads
the unbound local `info_param`, the resulting `NameError` is swallowed by
the bare `except`, and the `ValueError` is raised unconditionally —
contradicting the claim (and the docstring) that the error is raised only
when the generic probe fails on the engine. -/
theorem c5_generic_fallback_never_probes :
    analytic engOk initState "bool_and" ["x"] [] [] (some "nb") 1
        { num := 1, den := 2 } true 7 true
      = Res.err (.aggDoesNotExist "bool_and") initState := by
  decide

/-! ### Claim C6: the missing-column validation -/

/-- C6 counterexample: calling `analytic("max")` with no columns but with an
order-by, while the `print_info` option is off, does not raise
`MissingColumn`: the warning branch of line 417 pre-empts the `elif` of line
422, and the call then dies with an `IndexError` at `columns[0]` (line 549),
no SQL having been issued. -/
theorem c6_counterexample :
    missingColumnRaised
        (analytic engOk initState "max" [] [] ["t"] (some "nm") 1
          { num := 1, den := 2 } true 7 false) = false ∧
    analytic engOk initState "max" [] [] ["t"] (some "nm") 1
        { num := 1, den := 2 } true 7 false
      = Res.err .indexError { initState with warnings := ["max"] } := by
  refine ⟨by decide, by decide⟩

/-- C6 as amended: for every order-independent aggregate (or percentile
name), calling `analytic` with an empty `columns` raises `MissingColumn`
before any SQL query is issued, provided the order-by warning branch is not
taken first — that is, whenever no `order_by` was supplied or the
`print_info` option is on.  (With an `order_by` and `print_info` off, the
warning pre-empts the check; see the counterexample.) -/
theorem c6_missing_column_guarded
    (eng : Engine) (st : RState) (func0 : String) (bys0 orderBys0 : List String)
    (name0 : Option String) (off : Int) (xs : PyFloat) (ac : Bool) (rnb : Nat)
    (pinfo : Bool)
    (h1 : set1Cond (aggNorm func0) = true)
    (h2 : orderBys0 = [] ∨ pinfo = true) :
    analytic eng st func0 [] bys0 orderBys0 name0 off xs ac rnb pinfo
      = Res.err (.missingColumn (aggNorm func0)) st := by
  rcases h2 with h2 | h2 <;> subst h2 <;>
    simp [analytic, analyticBranch1, h1, getSortSyntax]

/-- Witness for C6 at a concrete input: `analytic("max")` with no columns
and no order-by raises `MissingColumn` with the state untouched. -/
theorem c6_witness :
    set1Cond (aggNorm "max") = true ∧
    analytic engOk initState "max" [] [] [] (some "nm") 1
        { num := 1, den := 2 } true 7 false
      = Res.err (.missingColumn (aggNorm "max")) initState :=
  ⟨by decide,
   c6_missing_column_guarded engOk initState "max" [] [] (some "nm") 1
     { num := 1, den := 2 } true 7 false (by decide) (Or.inl rfl)⟩

/-! ### Claim C7: the degenerate pairwise short-circuit -/

/-- C7: for every column `c` and every partition, `analytic("corr", [c, c])`
compiles the literal expression `1` (no standard-deviation division is
built), and `analytic("cov", [c, c])` compiles `VARIANCE(c) OVER
(partition)`; both go straight to the type-probe-and-create step. -/
theorem c7_pairwise_degenerate
    (eng : Engine) (st : RState) (c : String) (bys0 : List String) (nm : String)
    (off : Int) (xs : PyFloat) (ac : Bool) (rnb : Nat) (pinfo : Bool) :
    analytic eng st "corr" [c, c] bys0 [] (some nm) off xs ac rnb pinfo
      = vdfEval eng st nm "1" ∧
    analytic eng st "cov" [c, c] bys0 [] (some nm) off xs ac rnb pinfo
      = vdfEval eng st nm
          ("VARIANCE(" ++ quoteIdent c ++ ") OVER (" ++
           partitionClause (bys0.map quoteIdent) ++ ")") := by
  constructor
  · simp [analytic, analyticPair, getSortSyntax,
      show aggNorm "corr" = "corr" from by decide,
      show set1Cond "corr" = false from by decide,
      show inList "corr" rankList = false from by decide,
      show inList "corr" pairList = true from by decide]
  · simp [analytic, analyticPair, getSortSyntax,
      show aggNorm "cov" = "cov" from by decide,
      show set1Cond "cov" = false from by decide,
      show inList "cov" rankList = false from by decide,
      show inList "cov" pairList = true from by decide]

/-! ### Claim C9: the log-domain product -/

/-- C9: `analytic("prod", columns=["x"], by=["g"])` compiles the log-domain
product expression of lines 538-547: it contains the `SUM(LOG(ABS(x)))`
term exponentiated through `POWER(10, ...)`, and the sign-correction
`DECODE(ABS(MOD(SUM(CASE WHEN x < 0 THEN 1 ELSE 0 END) OVER (...), 2)), 0,
1, -1)` counting negative values modulo 2. -/
theorem c9_prod_log_domain
    (eng : Engine) (st : RState) (nm : String)
    (off : Int) (xs : PyFloat) (ac : Bool) (rnb : Nat) (pinfo : Bool) :
    analytic eng st "prod" ["x"] ["g"] [] (some nm) off xs ac rnb pinfo
      = vdfEval eng st nm
          (prodExpr (quoteIdent "x") (partitionClause [quoteIdent "g"])) ∧
    strContains (prodExpr (quoteIdent "x") (partitionClause [quoteIdent "g"]))
      "SUM(LOG(ABS(\"x\")))" = true ∧
    strContains (prodExpr (quoteIdent "x") (partitionClause [quoteIdent "g"]))
      "POWER(10, SUM(LOG(ABS(\"x\")))" = true ∧
    strContains (prodExpr (quoteIdent "x") (partitionClause [quoteIdent "g"]))
      "DECODE(ABS(MOD(SUM(CASE" = true ∧
    strContains (prodExpr (quoteIdent "x") (partitionClause [quoteIdent "g"]))
      "WHEN \"x\" < 0" = true ∧
    strContains (prodExpr (quoteIdent "x") (partitionClause [quoteIdent "g"]))
      "THEN 1 ELSE 0 END)" = true ∧
    strContains (prodExpr (quoteIdent "x") (partitionClause [quoteIdent "g"]))
      "OVER (PARTITION BY \"g\"), 2)), 0, 1, -1)" = true := by
  refine ⟨?_, by decide, by decide, by decide, by decide, by decide, by decide⟩
  simp [analytic, analyticBranch1, getSortSyntax,
    show aggNorm "prod" = "prod" from by decide,
    show set1Cond "prod" = true from by decide,
    show inList "prod" momentList = false from by decide]
  intro h
  exact absurd h (by decide)

/-! ### Claim C8: the percentile form -/

/-- The last character of a character list is a member of it. -/
theorem charMem_of_getLast? {l : List Char} {ch : Char} (h : l.getLast? = some ch) :
    charMem ch l = true := by
  induction l with
  | nil => simp at h
  | cons a t ih =>
    cases t with
    | nil =>
      simp [List.getLast?] at h
      simp [charMem, h]
    | cons b t2 =>
      rw [List.getLast?_cons_cons] at h
      have hm := ih h
      simp [charMem] at hm ⊢
      tauto

/-- A string contains its last character. -/
theorem strContainsChar_of_last {s : String} {c : Char} (h : strLastChar s = some c) :
    strContainsChar s c = true := charMem_of_getLast? h

/-- No higher-moment function name ends in a percent sign. -/
theorem inList_momentList_false {f : String} (h : strLastChar f = some '%') :
    inList f momentList = false := by
  have h1 : f ≠ "skewness" := by rintro rfl; exact absurd h (by decide)
  have h2 : f ≠ "kurtosis" := by rintro rfl; exact absurd h (by decide)
  have h3 : f ≠ "aad" := by rintro rfl; exact absurd h (by decide)
  have h4 : f ≠ "mad" := by rintro rfl; exact absurd h (by decide)
  have h5 : f ≠ "jb" := by rintro rfl; exact absurd h (by decide)
  simp [momentList, inList, h1, h2, h3, h4, h5]

/-- C8: for a `func` ending in `%` (fixed by name normalization), if the
prefix does not parse as a number the call raises the descriptive percentile
`ValueError` with the state untouched — no SQL was issued — and if the
prefix parses as `x` the call compiles exactly
`PERCENTILE_CONT(x / 100) WITHIN GROUP(ORDER BY col) OVER (partition)`. -/
theorem c8_percentile
    (eng : Engine) (st : RState) (func0 c : String) (bys0 : List String) (nm : String)
    (off : Int) (xs : PyFloat) (ac : Bool) (rnb : Nat) (pinfo : Bool)
    (hnorm : aggNorm func0 = func0)
    (hlast : strLastChar func0 = some '%') :
    (parseFloat (strDropLast func0) = none →
      analytic eng st func0 [c] bys0 [] (some nm) off xs ac rnb pinfo
        = Res.err (.percentileFormat func0) st) ∧
    (∀ x, parseFloat (strDropLast func0) = some x →
      analytic eng st func0 [c] bys0 [] (some nm) off xs ac rnb pinfo
        = vdfEval eng st nm
            ("PERCENTILE_CONT(" ++ pyFloatRepr (x.divPow10 2) ++
             ") WITHIN GROUP(ORDER BY " ++ quoteIdent c ++ ") OVER (" ++
             partitionClause (bys0.map quoteIdent) ++ ")")) := by
  have hne_top : func0 ≠ "top" := by rintro rfl; exact absurd hlast (by decide)
  have hne_unique : func0 ≠ "unique" := by rintro rfl; exact absurd hlast (by decide)
  have hmom := inList_momentList_false hlast
  have hset : set1Cond func0 = true := by
    simp [set1Cond, strContainsChar_of_last hlast]
  constructor
  · intro hp
    simp [analytic, hnorm, hset, analyticBranch1, getSortSyntax, hmom,
      hne_top, hne_unique, hlast, hp]
  · intro x hp
    simp [analytic, hnorm, hset, analyticBranch1, getSortSyntax, hmom,
      hne_top, hne_unique, hlast, hp]

/-- Witness for C8: `analytic("fifty%")` fails with the percentile error and
no query issued; `analytic("50%")` compiles `PERCENTILE_CONT(0.5) WITHIN
GROUP(ORDER BY "x") OVER ()`. -/
theorem c8_witness :
    parseFloat (strDropLast "fifty%") = none ∧
    analytic engOk initState "fifty%" ["x"] [] [] (some "pc") 1
        { num := 1, den := 2 } true 7 true
      = Res.err (.percentileFormat "fifty%") initState ∧
    parseFloat (strDropLast "50%") = some { num := 50, den := 1 } ∧
    (analytic engOk initState "50%" ["x"] [] [] (some "pc") 1
        { num := 1, den := 2 } true 7 true
      = vdfEval engOk initState "pc"
          ("PERCENTILE_CONT(" ++
           pyFloatRepr (PyFloat.divPow10 { num := 50, den := 1 } 2) ++
           ") WITHIN GROUP(ORDER BY " ++ quoteIdent "x" ++ ") OVER (" ++
           partitionClause (([] : List String).map quoteIdent) ++ ")")) ∧
    pyFloatRepr (PyFloat.divPow10 { num := 50, den := 1 } 2) = "0.5" :=
  ⟨by decide,
   (c8_percentile engOk initState "fifty%" "x" [] "pc" 1 { num := 1, den := 2 }
      true 7 true (by decide) (by decide)).1 (by decide),
   by decide,
   (c8_percentile engOk initState "50%" "x" [] "pc" 1 { num := 1, den := 2 }
      true 7 true (by decide) (by decide)).2 { num := 50, den := 1 } (by decide),
   by decide⟩

/-! ### Claim C3: scratch columns and `exclude_columns` -/

/-- Sequencing inversion: a successful `bind` comes from a successful first
step. -/
theorem Res.bind_ok {r : Res} {f : RState → Res} {st1 : RState}
    (h : Res.bind r f = Res.ok st1) : ∃ st0, r = Res.ok st0 ∧ f st0 = Res.ok st1 := by
  cases r with
  | ok s => exact ⟨s, rfl, h⟩
  | err e s => simp [Res.bind] at h

/-- Inversion of a successful `vDataFrame.eval`. -/
theorem vdfEval_ok {eng : Engine} {st : RState} {name expr : String} {st1 : RState}
    (h : vdfEval eng st name expr = Res.ok st1) :
    ∃ ctype, eng (evalProbe st.vdf name expr) = Except.ok ctype ∧
      st1 = { st with
        queries := st.queries ++ [evalProbe st.vdf name expr],
        vdf := { st.vdf with
          cols := st.vdf.cols ++
            [{ aliasName := quoteIdent name,
               transf := [(expr, ctype, toCategory ctype)], catalog := none }] } } := by
  simp only [vdfEval] at h
  rcases heng : eng (evalProbe st.vdf name expr) with e | ct
  · rw [heng] at h; simp at h
  · rw [heng] at h
    simp at h
    exact ⟨ct, rfl, h.symm⟩

/-- Membership in an appended list splits. -/
theorem inList_append (a : String) (l1 l2 : List String) :
    inList a (l1 ++ l2) = (inList a l1 || inList a l2) := by
  induction l1 with
  | nil => simp [inList]
  | cons x xs ih => simp [inList, ih, Bool.or_assoc]

/-- C3 counterexample: after `analytic("top", columns=["x"], by=["g"])` with
`add_count = True`, the companion `"tp_count"` column exists in the relation
but is not a member of `exclude_columns` — the exclusion block of lines
645-654 only covers the higher-moment functions, so the claim fails for the
`top` path. -/
theorem c3_counterexample :
    (match analytic engOk initState "top" ["x"] ["g"] [] (some "tp") 1
        { num := 1, den := 2 } true 7 true with
     | Res.ok st1 =>
        inList (quoteIdent "tp_count") (colAliases st1.vdf) &&
          !(inList (quoteIdent "tp_count") st1.vdf.excludeCols)
     | Res.err _ _ => false) = true := by
  decide

set_option maxHeartbeats 2000000 in
/-- C3 as amended: after every successful higher-moment `analytic` call
(skewness, kurtosis, jb, aad, mad), every scratch alias created during the
call is a member of `exclude_columns`, and — provided the closure invariant
held before the call — every member of `exclude_columns` names a column that
exists in the relation.  (The `top` path's companion `_count` column is a
deliberately added visible column and is not excluded; see the
counterexample.) -/
theorem c3_moment_scratch_excluded
    (eng : Engine) (st : RState) (func0 c : String) (bys0 : List String) (nm : String)
    (off : Int) (xs : PyFloat) (ac : Bool) (rnb : Nat) (pinfo : Bool) (st1 : RState)
    (hfunc : inList func0 momentList = true)
    (hclosed : ∀ a, inList a st.vdf.excludeCols = true → inList a (colAliases st.vdf) = true)
    (hok : analytic eng st func0 [c] bys0 [] (some nm) off xs ac rnb pinfo = Res.ok st1) :
    (∀ a, inList a (momentScratch func0 (quoteIdent c) rnb) = true →
       inList a st1.vdf.excludeCols = true) ∧
    (∀ a, inList a st1.vdf.excludeCols = true → inList a (colAliases st1.vdf) = true) := by
  have hd : func0 = "skewness" ∨ func0 = "kurtosis" ∨ func0 = "aad" ∨
      func0 = "mad" ∨ func0 = "jb" := by
    simpa [momentList, inList] using hfunc
  rcases hd with rfl | rfl | rfl | rfl | rfl
  · simp only [analytic, analyticBranch1, analyticMoment, getSortSyntax,
      show aggNorm "skewness" = "skewness" from by decide,
      show set1Cond "skewness" = true from by decide,
      show inList "skewness" momentList = true from by decide] at hok
    simp at hok
    obtain ⟨s1, h1, hok⟩ := Res.bind_ok hok
    obtain ⟨s2, h2, hok⟩ := Res.bind_ok hok
    obtain ⟨s2a, h2a, h2b⟩ := Res.bind_ok h2
    obtain ⟨s3, h3, hok⟩ := Res.bind_ok hok
    obtain ⟨ct1, hq1, rfl⟩ := vdfEval_ok h1
    obtain ⟨ct2, hq2, rfl⟩ := vdfEval_ok h2a
    obtain ⟨ct3, hq3, rfl⟩ := vdfEval_ok h2b
    obtain ⟨ct4, hq4, rfl⟩ := vdfEval_ok h3
    simp only [Res.ok.injEq] at hok
    subst hok
    constructor
    · intro a ha
      simp only [momentScratch] at ha
      simp only [inList] at ha
      simp only [inList_append, inList]
      simp at ha ⊢
      tauto
    · intro a ha
      simp only [inList_append, inList] at ha
      simp only [colAliases, List.map_append, inList_append, inList]
      simp at ha ⊢
      rcases ha with ha | rfl | rfl | rfl
      · have hcl := hclosed a ha
        simp [colAliases] at hcl
        tauto
      · tauto
      · tauto
      · tauto
  · simp only [analytic, analyticBranch1, analyticMoment, getSortSyntax,
      show aggNorm "kurtosis" = "kurtosis" from by decide,
      show set1Cond "kurtosis" = true from by decide,
      show inList "kurtosis" momentList = true from by decide] at hok
    simp at hok
    obtain ⟨s1, h1, hok⟩ := Res.bind_ok hok
    obtain ⟨s2, h2, hok⟩ := Res.bind_ok hok
    obtain ⟨s2a, h2a, h2b⟩ := Res.bind_ok h2
    obtain ⟨s3, h3, hok⟩ := Res.bind_ok hok
    obtain ⟨ct1, hq1, rfl⟩ := vdfEval_ok h1
    obtain ⟨ct2, hq2, rfl⟩ := vdfEval_ok h2a
    obtain ⟨ct3, hq3, rfl⟩ := vdfEval_ok h2b
    obtain ⟨ct4, hq4, rfl⟩ := vdfEval_ok h3
    simp only [Res.ok.injEq] at hok
    subst hok
    constructor
    · intro a ha
      simp only [momentScratch] at ha
      simp only [inList] at ha
      simp only [inList_append, inList]
      simp at ha ⊢
      tauto
    · intro a ha
      simp only [inList_append, inList] at ha
      simp only [colAliases, List.map_append, inList_append, inList]
      simp at ha ⊢
      rcases ha with ha | rfl | rfl | rfl
      · have hcl := hclosed a ha
        simp [colAliases] at hcl
        tauto
      · tauto
      · tauto
      · tauto
  · simp only [analytic, analyticBranch1, analyticMoment, getSortSyntax,
      show aggNorm "aad" = "aad" from by decide,
      show set1Cond "aad" = true from by decide,
      show inList "aad" momentList = true from by decide] at hok
    simp at hok
    obtain ⟨s1, h1, hok⟩ := Res.bind_ok hok
    simp only [Res.bind] at hok
    obtain ⟨s3, h3, hok⟩ := Res.bind_ok hok
    obtain ⟨ct1, hq1, rfl⟩ := vdfEval_ok h1
    obtain ⟨ct4, hq4, rfl⟩ := vdfEval_ok h3
    simp only [Res.ok.injEq] at hok
    subst hok
    constructor
    · intro a ha
      simp only [momentScratch] at ha
      simp only [inList] at ha
      simp only [inList_append, inList]
      simp at ha ⊢
      tauto
    · intro a ha
      simp only [inList_append, inList] at ha
      simp only [colAliases, List.map_append, inList_append, inList]
      simp at ha ⊢
      rcases ha with ha | rfl
      · have hcl := hclosed a ha
        simp [colAliases] at hcl
        tauto
      · tauto
  · simp only [analytic, analyticBranch1, analyticMoment, getSortSyntax,
      show aggNorm "mad" = "mad" from by decide,
      show set1Cond "mad" = true from by decide,
      show inList "mad" momentList = true from by decide] at hok
    simp at hok
    obtain ⟨s1, h1, hok⟩ := Res.bind_ok hok
    simp only [Res.bind] at hok
    obtain ⟨s3, h3, hok⟩ := Res.bind_ok hok
    obtain ⟨ct1, hq1, rfl⟩ := vdfEval_ok h1
    obtain ⟨ct4, hq4, rfl⟩ := vdfEval_ok h3
    simp only [Res.ok.injEq] at hok
    subst hok
    constructor
    · intro a ha
      simp only [momentScratch] at ha
      simp only [inList] at ha
      simp only [inList_append, inList]
      simp at ha ⊢
      tauto
    · intro a ha
      simp only [inList_append, inList] at ha
      simp only [colAliases, List.map_append, inList_append, inList]
      simp at ha ⊢
      rcases ha with ha | rfl
      · have hcl := hclosed a ha
        simp [colAliases] at hcl
        tauto
      · tauto
  · simp only [analytic, analyticBranch1, analyticMoment, getSortSyntax,
      show aggNorm "jb" = "jb" from by decide,
      show set1Cond "jb" = true from by decide,
      show inList "jb" momentList = true from by decide] at hok
    simp at hok
    obtain ⟨s1, h1, hok⟩ := Res.bind_ok hok
    obtain ⟨s2, h2, hok⟩ := Res.bind_ok hok
    obtain ⟨s2a, h2a, h2b⟩ := Res.bind_ok h2
    obtain ⟨s3, h3, hok⟩ := Res.bind_ok hok
    obtain ⟨ct1, hq1, rfl⟩ := vdfEval_ok h1
    obtain ⟨ct2, hq2, rfl⟩ := vdfEval_ok h2a
    obtain ⟨ct3, hq3, rfl⟩ := vdfEval_ok h2b
    obtain ⟨ct4, hq4, rfl⟩ := vdfEval_ok h3
    simp only [Res.ok.injEq] at hok
    subst hok
    constructor
    · intro a ha
      simp only [momentScratch] at ha
      simp only [inList] at ha
      simp only [inList_append, inList]
      simp at ha ⊢
      tauto
    · intro a ha
      simp only [inList_append, inList] at ha
      simp only [colAliases, List.map_append, inList_append, inList]
      simp at ha ⊢
      rcases ha with ha | rfl | rfl | rfl
      · have hcl := hclosed a ha
        simp [colAliases] at hcl
        tauto
      · tauto
      · tauto
      · tauto

/-- Witness for C3 (amended) at a concrete input: after
`analytic("skewness", columns=["x"], by=["g"])` all three scratch aliases
are excluded and `exclude_columns` only names existing columns. -/
theorem c3_witness :
    inList "skewness" momentList = true ∧
    ((∀ a, inList a (momentScratch "skewness" (quoteIdent "x") 7) = true →
        inList a c3wState.vdf.excludeCols = true) ∧
     (∀ a, inList a c3wState.vdf.excludeCols = true →
        inList a (colAliases c3wState.vdf) = true)) :=
  ⟨by decide,
   c3_moment_scratch_excluded engOk initState "skewness" "x" ["g"] "sk" 1
     { num := 1, den := 2 } true 7 true c3wState (by decide)
     (fun a h => by simp [initState, initVDF, inList] at h) (by decide)⟩
